import Mathlib

/-!
# Verification of the Mayastor control-plane (moac) against its specification

A shallow embedding of the volume orchestrator and CSI controller facade of
the Mayastor control plane.  The JavaScript sources embedded here are
`src/csi/moac/csi.js` (which contains both the `CsiServer` class and the
`Volume` class) together with the unit tests of the registry and pool objects
(`src/unnamed/part_001`, `src/nix/pkgs/nodePackages/README`).  The registry
implementation (`registry.js`) and the helper module `common.js` are not part
of the provided sources; the definitions derived from them are modelled from
the specification (and cross-checked against the unit tests present in the
sources) and are marked as such in their doc comments.

JavaScript numbers that hold byte counts are modelled as `Int` (subtraction
such as `capacity - used` may in principle go negative and JS does not
truncate).  JS strings (pool states, share protocols, messages) are modelled
as `String` with the same literal values the code uses.  Stateful methods
become pure state-passing functions; calls to external storage nodes (RPC)
become oracle parameters, and code paths where the embedding fixes every RPC
to succeed are noted as the success path.
-/

namespace Mayastor

/-- gRPC status codes used by the control plane (spec section 6). -/
inductive GrpcCode where
  | OK
  | UNKNOWN
  | INVALID_ARGUMENT
  | NOT_FOUND
  | ALREADY_EXISTS
  | RESOURCE_EXHAUSTED
  | INTERNAL
  | UNAVAILABLE
  | UNIMPLEMENTED
deriving DecidableEq, Repr

/-- A gRPC error as thrown by the JS code (`GrpcError(code, message)`). -/
structure GrpcErr where
  code : GrpcCode
  message : String
deriving DecidableEq, Repr

/-- A storage pool as seen by the registry.  `node` is the name of the node
the pool is bound to (`pool.node.name` in JS), `replicas` is the number of
replicas currently hosted on the pool (`pool.replicas.length`). -/
structure Pool where
  name : String
  node : String
  state : String
  capacity : Int
  used : Int
  replicas : Nat
deriving DecidableEq, Repr

/-- `freeBytes()` of a pool: `capacity - used`. -/
def Pool.freeBytes (p : Pool) : Int := p.capacity - p.used

/-- Modelled from the spec: `isPoolAccessible` lives in `csi/moac/common.js`,
which is not among the provided sources.  Spec section 3 defines
`accessible = state ∈ {ONLINE, DEGRADED}`; the pool unit tests in the sources
confirm: `POOL_ONLINE` accessible, `POOL_DEGRADED` accessible,
`POOL_FAULTED` not accessible. -/
def isPoolAccessible (p : Pool) : Bool :=
  p.state == "POOL_ONLINE" || p.state == "POOL_DEGRADED"

/-- Does the pool's node belong to the given node-name list? -/
def inNodeList (nodes : List String) (p : Pool) : Bool :=
  nodes.contains p.node

/-- Sort key of a pool for `choosePools`: smaller keys sort first.  The four
components are (preferred-node membership, ONLINE state, number of replicas,
negated free bytes); for the boolean components 0 means the property holds,
so holders come first. -/
def poolKey (shouldNodes : List String) (p : Pool) : Nat × Nat × Nat × Int :=
  (if inNodeList shouldNodes p then 0 else 1,
   if p.state == "POOL_ONLINE" then 0 else 1,
   p.replicas,
   - p.freeBytes)

/-- Lexicographic comparison of two sort keys. -/
def keyLE : Nat × Nat × Nat × Int → Nat × Nat × Nat × Int → Bool
  | (a1, a2, a3, a4), (b1, b2, b3, b4) =>
    decide (a1 < b1 ∨ (a1 = b1 ∧ (a2 < b2 ∨ (a2 = b2 ∧
      (a3 < b3 ∨ (a3 = b3 ∧ a4 ≤ b4))))))

/-- Modelled from the spec: the comparator of `registry.choosePools`
(`registry.js` is not among the provided sources).  The spec (section 4.4)
lists the key components (preferred-node membership, ONLINE state, fewer
replicas, more free bytes); its claim that preferred-node membership is the
*final* tiebreaker is contradicted by the registry unit test
`should prefer pool on node preferred by user` in the sources, which requires
a pool on a preferred node to beat an ONLINE pool elsewhere, so membership in
`shouldNodes` is the dominant component here. -/
def poolLE (shouldNodes : List String) (a b : Pool) : Prop :=
  keyLE (poolKey shouldNodes a) (poolKey shouldNodes b) = true

instance (shouldNodes : List String) : DecidableRel (poolLE shouldNodes) :=
  fun _ _ => instDecidableEqBool _ _

/-- Comparator written exactly as the spec's sentence in section 4.4 orders
the components: ONLINE state first, then fewer replicas, then more free
bytes, and membership in `shouldNodes` as the final tiebreaker.  It is kept
for comparison with `poolLE`, which follows the unit tests. -/
def specWordsKey (shouldNodes : List String) (p : Pool) : Nat × Nat × Nat × Int :=
  (if p.state == "POOL_ONLINE" then 0 else 1,
   p.replicas,
   (- p.freeBytes).toNat + (if 0 ≤ p.freeBytes then 0 else 0),
   if inNodeList shouldNodes p then 0 else 1)

/-- The ordering stated by the spec's words (`shouldNodes` last). -/
def specWordsLE (shouldNodes : List String) (a b : Pool) : Prop :=
  keyLE (specWordsKey shouldNodes a) (specWordsKey shouldNodes b) = true

instance (shouldNodes : List String) : DecidableRel (specWordsLE shouldNodes) :=
  fun _ _ => instDecidableEqBool _ _

/-- Greedy one-pool-per-node pass of `choosePools`: walk the sorted list and
skip every pool whose node already contributed (`seen`). -/
def dedupByNode : List Pool → List String → List Pool
  | [], _ => []
  | p :: ps, seen =>
    if seen.contains p.node then dedupByNode ps seen
    else p :: dedupByNode ps (p.node :: seen)

/-- Modelled from the spec: `registry.choosePools(requiredBytes, mustNodes,
shouldNodes)` (`registry.js` is not among the provided sources; spec section
4.4, cross-checked against the registry unit tests in the sources).
1. consider every pool; 2. keep pools that are accessible, have
`freeBytes ≥ requiredBytes` and, when `mustNodes` is non-empty, sit on a
node in `mustNodes`; 3. stable-sort by the comparator; 4. keep at most one
pool per node. -/
def choosePools (requiredBytes : Int) (mustNodes shouldNodes : List String)
    (pools : List Pool) : List Pool :=
  let fil := pools.filter fun p =>
    isPoolAccessible p && decide (requiredBytes ≤ p.freeBytes) &&
      (mustNodes.isEmpty || mustNodes.contains p.node)
  dedupByNode (fil.insertionSort (poolLE shouldNodes)) []

/-! ## Helper lemmas about the pool-selection algorithm -/

theorem keyLE_trans {a b c : Nat × Nat × Nat × Int}
    (h1 : keyLE a b = true) (h2 : keyLE b c = true) : keyLE a c = true := by
  obtain ⟨a1, a2, a3, a4⟩ := a
  obtain ⟨b1, b2, b3, b4⟩ := b
  obtain ⟨c1, c2, c3, c4⟩ := c
  simp only [keyLE, decide_eq_true_eq] at h1 h2 ⊢
  omega

theorem keyLE_total (a b : Nat × Nat × Nat × Int) :
    keyLE a b = true ∨ keyLE b a = true := by
  obtain ⟨a1, a2, a3, a4⟩ := a
  obtain ⟨b1, b2, b3, b4⟩ := b
  simp only [keyLE, decide_eq_true_eq]
  omega

instance (shouldNodes : List String) : IsTrans Pool (poolLE shouldNodes) :=
  ⟨fun _ _ _ h1 h2 => keyLE_trans h1 h2⟩

instance (shouldNodes : List String) : IsTotal Pool (poolLE shouldNodes) :=
  ⟨fun _ _ => keyLE_total _ _⟩

/-- Every pool produced by the one-per-node pass comes from the input list. -/
theorem dedupByNode_sublist :
    ∀ (l : List Pool) (seen : List String), (dedupByNode l seen).Sublist l := by
  intro l
  induction l with
  | nil => intro seen; simp [dedupByNode]
  | cons p ps ih =>
    intro seen
    by_cases h : seen.contains p.node
    · simp only [dedupByNode, if_pos h]
      exact (ih seen).cons _
    · simp only [dedupByNode, if_neg h]
      exact (ih (p.node :: seen)).cons₂ _

theorem mem_dedupByNode {q : Pool} :
    ∀ {l : List Pool} {seen : List String}, q ∈ dedupByNode l seen → q ∈ l :=
  fun {l seen} h => (dedupByNode_sublist l seen).mem h

/-- In the output of the one-per-node pass, no node of `seen` occurs and all
node names are distinct. -/
theorem dedupByNode_nodes :
    ∀ (l : List Pool) (seen : List String),
      (∀ q ∈ dedupByNode l seen, ¬ seen.contains q.node = true) ∧
      (dedupByNode l seen).Pairwise (fun p q => p.node ≠ q.node) := by
  intro l
  induction l with
  | nil => intro seen; simp [dedupByNode]
  | cons p ps ih =>
    intro seen
    by_cases h : seen.contains p.node
    · simpa only [dedupByNode, if_pos h] using ih seen
    · simp only [dedupByNode, if_neg h]
      obtain ⟨hseen, hpair⟩ := ih (p.node :: seen)
      constructor
      · intro q hq
        rcases List.mem_cons.mp hq with rfl | hq'
        · exact fun hc => h hc
        · intro hc
          have hm : q.node ∈ seen := by simpa using hc
          exact hseen _ hq' (by simp [List.contains_cons, hm])
      · refine List.Pairwise.cons ?_ hpair
        intro q hq hEq
        exact hseen _ hq (by simp [List.contains_cons, hEq.symm])

/-- Membership in the result of `choosePools` implies the filter predicate. -/
theorem mem_choosePools {b : Int} {must should : List String}
    {pools : List Pool} {p : Pool}
    (h : p ∈ choosePools b must should pools) :
    p ∈ pools ∧ isPoolAccessible p = true ∧ b ≤ p.freeBytes ∧
      (must = [] ∨ p.node ∈ must) := by
  unfold choosePools at h
  have h1 := mem_dedupByNode h
  have h2 := (List.perm_insertionSort (poolLE should) _).mem_iff.mp h1
  have h3 := List.mem_filter.mp h2
  refine ⟨h3.1, ?_⟩
  have h4 := h3.2
  simp only [Bool.and_eq_true, Bool.or_eq_true, decide_eq_true_eq,
    List.isEmpty_iff, List.elem_eq_mem] at h4
  exact ⟨h4.1.1, h4.1.2, h4.2⟩

/-- C1.  `choosePools(b, must, should)` returns pools on pairwise distinct
nodes, each with `freeBytes ≥ b`, and all on nodes of `must` whenever `must`
is non-empty. -/
theorem choosePools_placement (b : Int) (must should : List String)
    (pools : List Pool) :
    (choosePools b must should pools).Pairwise (fun p q => p.node ≠ q.node) ∧
    (∀ p ∈ choosePools b must should pools, b ≤ p.freeBytes) ∧
    (must ≠ [] → ∀ p ∈ choosePools b must should pools, p.node ∈ must) := by
  refine ⟨?_, ?_, ?_⟩
  · exact (dedupByNode_nodes _ []).2
  · intro p hp
    exact (mem_choosePools hp).2.2.1
  · intro hmust p hp
    rcases (mem_choosePools hp).2.2.2 with h | h
    · exact absurd h hmust
    · exact h

/-- Concrete pools reproducing the registry unit test
`should prefer pool on node preferred by user`. -/
def cvPool1 : Pool := ⟨"pool1", "node1", "POOL_ONLINE", 100, 0, 0⟩

/-- Second pool of the same unit test (on the user-preferred node). -/
def cvPool2 : Pool := ⟨"pool2", "node2", "POOL_DEGRADED", 100, 25, 0⟩

/-- Witness for C1 at a concrete input with a non-empty `must` list. -/
theorem choosePools_placement_witness :
    (["node2"] : List String) ≠ [] ∧ cvPool2.node ∈ ["node2"] :=
  ⟨by decide,
   (choosePools_placement 75 ["node2"] [] [cvPool1, cvPool2]).2.2 (by decide)
     cvPool2 (by decide)⟩

/-- C2 (amended).  The result of `choosePools` contains no `POOL_OFFLINE` or
`POOL_FAULTED` pool and is sorted descending by the key tuple (membership of
the pool's node in `shouldNodes` FIRST, then ONLINE before DEGRADED, then
fewer existing replicas, then larger free bytes). -/
theorem choosePools_order (b : Int) (must should : List String)
    (pools : List Pool) :
    (∀ p ∈ choosePools b must should pools,
        p.state ≠ "POOL_OFFLINE" ∧ p.state ≠ "POOL_FAULTED") ∧
    (choosePools b must should pools).Sorted (poolLE should) := by
  constructor
  · intro p hp
    have hacc := (mem_choosePools hp).2.1
    simp only [isPoolAccessible, Bool.or_eq_true, beq_iff_eq] at hacc
    rcases hacc with h | h <;> rw [h] <;> exact ⟨by decide, by decide⟩
  · unfold choosePools
    exact List.Pairwise.sublist (dedupByNode_sublist _ [])
      (List.sorted_insertionSort (poolLE should) _)

/-- Witness for C2: a concrete returned pool is neither OFFLINE nor
FAULTED. -/
theorem choosePools_order_witness :
    cvPool2.state ≠ "POOL_OFFLINE" ∧ cvPool2.state ≠ "POOL_FAULTED" :=
  (choosePools_order 75 [] ["node2"] [cvPool1, cvPool2]).1 cvPool2 (by decide)

/-- Counterexample to C2 as stated.  On the input of the registry unit test
`should prefer pool on node preferred by user` (sources, part_001), the
result puts the DEGRADED pool on the preferred node ahead of an ONLINE pool,
exactly as the unit test demands; under the claim's key order (ONLINE first,
`shouldNodes` only as final tiebreaker) `cvPool1` would have to come strictly
first, so the result is not sorted by the claimed key. -/
theorem choosePools_tiebreak_cex :
    choosePools 75 [] ["node2"] [cvPool1, cvPool2] = [cvPool2, cvPool1] ∧
    specWordsLE ["node2"] cvPool1 cvPool2 ∧
    ¬ specWordsLE ["node2"] cvPool2 cvPool1 := by
  refine ⟨by decide, by decide, by decide⟩

/-! Replays of the registry pool-selection unit tests (sources, part_001)
against the modelled `choosePools`, confirming the model. -/

example : choosePools 75 [] []
    [⟨"pool1", "node1", "POOL_DEGRADED", 100, 10, 0⟩,
     ⟨"pool2", "node2", "POOL_ONLINE", 100, 25, 0⟩,
     ⟨"pool3", "node3", "POOL_OFFLINE", 100, 0, 0⟩] =
    [⟨"pool2", "node2", "POOL_ONLINE", 100, 25, 0⟩,
     ⟨"pool1", "node1", "POOL_DEGRADED", 100, 10, 0⟩] := by decide

example : choosePools 75 [] []
    [⟨"pool1", "node1", "POOL_ONLINE", 100, 10, 2⟩,
     ⟨"pool2", "node2", "POOL_ONLINE", 100, 25, 1⟩] =
    [⟨"pool2", "node2", "POOL_ONLINE", 100, 25, 1⟩,
     ⟨"pool1", "node1", "POOL_ONLINE", 100, 10, 2⟩] := by decide

example : choosePools 75 [] []
    [⟨"pool1", "node1", "POOL_DEGRADED", 100, 10, 0⟩,
     ⟨"pool2", "node2", "POOL_DEGRADED", 100, 20, 0⟩] =
    [⟨"pool1", "node1", "POOL_DEGRADED", 100, 10, 0⟩,
     ⟨"pool2", "node2", "POOL_DEGRADED", 100, 20, 0⟩] := by decide

example : choosePools 75 ["node1", "node2"] []
    [⟨"pool1", "node1", "POOL_FAULTED", 100, 10, 0⟩,
     ⟨"pool2", "node2", "POOL_ONLINE", 100, 26, 0⟩,
     ⟨"pool3", "node3", "POOL_ONLINE", 100, 10, 0⟩] = [] := by decide

example : (choosePools 75 [] []
    [⟨"pool1", "node1", "POOL_ONLINE", 100, 11, 0⟩,
     ⟨"pool2", "node1", "POOL_ONLINE", 100, 10, 0⟩]).length = 1 := by decide

example : choosePools 75 ["node2"] []
    [⟨"pool1", "node1", "POOL_ONLINE", 100, 0, 0⟩,
     ⟨"pool2", "node2", "POOL_DEGRADED", 100, 25, 0⟩] =
    [⟨"pool2", "node2", "POOL_DEGRADED", 100, 25, 0⟩] := by decide

example : choosePools 75 [] ["node2"] [cvPool1, cvPool2] =
    [cvPool2, cvPool1] := by decide

/-! ## The Volume object (volume.js, second half of src/csi/moac/csi.js)

The `Volume` class mutates itself and calls storage nodes over RPC; here its
methods become pure state-passing functions.  `createReplica` RPC outcomes
are an oracle parameter (`Pool → Except String Unit`, the error being the JS
error message); `ensure` itself is embedded on the success path where every
RPC (`setShare`, `createNexus`, `addReplica`, `removeReplica`, replica
destroys) succeeds, which is the path the claims about successful `ensure()`
runs concern. -/

/-- A replica of a volume.  `node` is `replica.pool.node.name`. -/
structure Replica where
  uuid : String
  node : String
  share : String
  uri : String
  state : String
deriving DecidableEq, Repr

/-- A nexus.  Children are modelled by their access URIs (the JS `children`
list holds `{uri, state}` pairs; only `uri` is read by the embedded code). -/
structure Nexus where
  uuid : String
  node : String
  size : Int
  state : String
  children : List String
deriving DecidableEq, Repr

/-- The volume state (constructor of the JS `Volume` class).  `replicas` is
`Object.values(this.replicas)` in key-insertion order; the JS object is
indexed by node name, so node names are unique in the list. -/
structure Volume where
  uuid : String
  replicaCount : Nat
  preferredNodes : List String
  requiredNodes : List String
  requiredBytes : Int
  limitBytes : Int
  size : Int
  nexus : Option Nexus
  replicas : List Replica
  state : String
  reason : String
deriving DecidableEq, Repr

/-- Code-unit comparison of strings, as used by the JS default `sort()`. -/
def charListLE : List Char → List Char → Bool
  | [], _ => true
  | _ :: _, [] => false
  | a :: as, b :: bs =>
    if a.toNat < b.toNat then true
    else if b.toNat < a.toNat then false
    else charListLE as bs

/-- `strLE a b` holds when `a` sorts no later than `b` (JS `sort()`). -/
def strLE (a b : String) : Prop := charListLE a.data b.data = true

instance : DecidableRel strLE := fun _ _ => instDecidableEqBool _ _

/-- The JS default `Array.sort()` on strings (stable, by code units). -/
def sortStrings (l : List String) : List String := List.insertionSort strLE l

/-- `Volume._scoreReplica`: additive score of a replica, higher is better. -/
def scoreReplica (v : Volume) (r : Replica) : Nat :=
  (if v.requiredNodes.length > 0 && v.requiredNodes.contains r.node
   then 10 else 0) +
  (if r.state == "ONLINE" then 5 else 0) +
  (if v.preferredNodes.length > 0 && v.preferredNodes.contains r.node
   then 2 else 0) +
  (match v.nexus with
   | some n => if r.node == n.node then 1 else 0
   | none => 0)

/-- Order used by `Volume._prioritizeReplicas`: the JS comparator
`(a, b) => score(b) - score(a)` under a stable sort. -/
def replicaPref (v : Volume) (a b : Replica) : Prop :=
  scoreReplica v b ≤ scoreReplica v a

instance (v : Volume) : DecidableRel (replicaPref v) :=
  fun _ _ => Nat.decLe _ _

/-- `Volume._prioritizeReplicas`: replicas sorted most preferred first.
JS `Array.sort` is stable, so a stable sort models it exactly. -/
def prioritizeReplicas (v : Volume) : List Replica :=
  List.insertionSort (replicaPref v) v.replicas

/-- Access URI of a replica by share protocol (spec section 6; opaque to the
core, consumed verbatim by the nexus). -/
def shareUri (share node uuid : String) : String :=
  if share == "REPLICA_NONE" then "bdev:///" ++ uuid
  else if share == "REPLICA_NVMF" then "nvmf://" ++ node ++ ":8420/nqn:" ++ uuid
  else "iscsi://" ++ node ++ ":3260/iqn:" ++ uuid

/-- Effect of the share-protocol loop body of
`Volume._ensureReplicaShareProtocols` on one replica of the replica set
(`setShare` succeeding): a replica local to the nexus node that is not
`REPLICA_NONE` becomes `REPLICA_NONE`; a non-local replica that is
`REPLICA_NONE` becomes `REPLICA_NVMF`; anything else is untouched. -/
def setShareResult (nexusNode : String) (r : Replica) : Replica :=
  if r.node == nexusNode then
    if r.share != "REPLICA_NONE" then
      { r with share := "REPLICA_NONE",
               uri := shareUri "REPLICA_NONE" r.node r.uuid }
    else r
  else if r.share == "REPLICA_NONE" then
    { r with share := "REPLICA_NVMF",
             uri := shareUri "REPLICA_NVMF" r.node r.uuid }
  else r

/-- `Volume._ensureReplicaShareProtocols` on the success path of `setShare`.
Returns the updated volume, the replica set to be used for the nexus (the
top `replicaCount` prioritized replicas, after sharing) and the node the
sharing targeted (the existing nexus's node, else the top replica's node).
Fails with INTERNAL when the volume has no replicas, as the JS does. -/
def ensureReplicaShareProtocols (v : Volume) :
    Except GrpcErr (Volume × List Replica × String) :=
  match prioritizeReplicas v with
  | [] =>
    .error ⟨.INTERNAL, "There are no replicas for volume \"" ++ v.uuid ++ "\""⟩
  | r0 :: rest =>
    let rset := (r0 :: rest).take v.replicaCount
    let nexusNode :=
      match v.nexus with
      | some n => n.node
      | none => r0.node
    let rset2 := rset.map (setShareResult nexusNode)
    let newReplicas := v.replicas.map fun r =>
      if rset.contains r then setShareResult nexusNode r else r
    .ok ({ v with replicas := newReplicas }, rset2, nexusNode)

/-- `Object.values(this.replicas).find((r) => r.uri == uri)`. -/
def findByUri (replicas : List Replica) (uri : String) : Option Replica :=
  replicas.find? fun r => r.uri == uri

/-- The child-diff loop of `Volume._ensureNexus` over the sorted old URIs:
an old URI found in the remaining new URIs is matched (spliced out of them);
an unmatched old URI is removed from the nexus when some replica carries it,
and silently kept otherwise.  Returns (URIs removed, new URIs left to add). -/
def nexusChildWalk (replicas : List Replica) :
    List String → List String → List String × List String
  | [], toMatch => ([], toMatch)
  | u :: us, toMatch =>
    if toMatch.contains u then nexusChildWalk replicas us (toMatch.erase u)
    else if (findByUri replicas u).isSome then
      let (removed, rest) := nexusChildWalk replicas us toMatch
      (u :: removed, rest)
    else nexusChildWalk replicas us toMatch

/-- `Volume._ensureNexus` on the success path.  Without a nexus, create one
on the node of the first replica of the volume whose share is
`REPLICA_NONE` (note: searched over all replicas of the volume in insertion
order, not over the replica set), with the replica set's URIs as children;
with a nexus, remove unmatched old children that some replica carries, then
add the remaining new URIs that some replica carries. -/
def ensureNexus (v : Volume) (rset : List Replica) : Except GrpcErr Volume :=
  match v.nexus with
  | none =>
    match v.replicas.find? (fun r => r.share == "REPLICA_NONE") with
    | none =>
      .error ⟨.INTERNAL, "Cannot create nexus if none of the replicas is local"⟩
    | some localReplica =>
      .ok { v with nexus := some ⟨v.uuid, localReplica.node, v.size,
                                  "NEXUS_ONLINE", rset.map Replica.uri⟩ }
  | some nx =>
    let oldUris := sortStrings nx.children
    let newUris := sortStrings (rset.map Replica.uri)
    let walk := nexusChildWalk v.replicas oldUris newUris
    let afterRemove := nx.children.filter fun u => ¬ walk.1.contains u
    let added := walk.2.filter fun u => (findByUri v.replicas u).isSome
    .ok { v with nexus := some { nx with children := afterRemove ++ added } }

/-- `Number.MAX_SAFE_INTEGER`, the unit of the JS free-space reduce. -/
def maxSafeInteger : Int := 2 ^ 53 - 1

/-- The replica object a successful `pool.createReplica(uuid, size)` adds:
share `REPLICA_NONE`, state `ONLINE`, local bdev URI. -/
def newReplicaOn (uuid : String) (p : Pool) : Replica :=
  ⟨uuid, p.node, "REPLICA_NONE", shareUri "REPLICA_NONE" p.node uuid, "ONLINE"⟩

/-- The create loop of `Volume._createReplicas`: walk the candidate pools
while replicas are still needed; a successful create consumes one needed
replica, a failed one records the error message.  Returns (pools on which a
replica was created, error messages in order, replicas still missing). -/
def tryCreatePools (oracle : Pool → Except String Unit) :
    List Pool → Nat → List Pool × List String × Nat
  | _, 0 => ([], [], 0)
  | [], count => ([], [], count)
  | p :: ps, count + 1 =>
    match oracle p with
    | .ok _ =>
      let (cs, es, rem) := tryCreatePools oracle ps count
      (p :: cs, es, rem)
    | .error m =>
      let (cs, es, rem) := tryCreatePools oracle ps (count + 1)
      (cs, m :: es, rem)

/-- Candidate pools of `Volume._createReplicas`: `registry.choosePools`
minus pools on nodes that already host a replica of the volume. -/
def replicaCandidates (v : Volume) (registryPools : List Pool) : List Pool :=
  (choosePools v.requiredBytes v.requiredNodes v.preferredNodes
    registryPools).filter fun p =>
      ¬ (v.replicas.map Replica.node).contains p.node

/-- The RESOURCE_EXHAUSTED error of `Volume._createReplicas`. -/
def resourceExhaustedErr : GrpcErr :=
  ⟨.RESOURCE_EXHAUSTED, "Cannot find suitable storage pool(s) for the volume"⟩

/-- The INTERNAL error message of `Volume._createReplicas`: the fixed text
followed by the accumulated error messages joined by `. `. -/
def createFailMsg (uuid : String) (errors : List String) : String :=
  "Failed to create required number of replicas for volume \"" ++ uuid ++
    "\": " ++ String.intercalate ". " errors

/-- The size fixed by `Volume._createReplicas` when `this.size` is unset:
`Math.min(pools.reduce((acc, pool) => Math.min(acc, pool.freeBytes()),
Number.MAX_SAFE_INTEGER), this.limitBytes || this.requiredBytes)`. -/
def fixedSize (v : Volume) (cand : List Pool) : Int :=
  if v.size == 0 then
    min (cand.foldl (fun acc p => min acc p.freeBytes) maxSafeInteger)
        (if v.limitBytes != 0 then v.limitBytes else v.requiredBytes)
  else v.size

/-- `Volume._createReplicas(count)`.  The first component is the error the
JS method throws (`none` on success); the second is the volume state after
the call, including the size mutation and the replicas created before any
INTERNAL failure; the third lists the pools on which replicas were
created. -/
def createReplicasCore (oracle : Pool → Except String Unit)
    (registryPools : List Pool) (count : Nat) (v : Volume) :
    Option GrpcErr × Volume × List Pool :=
  let cand := replicaCandidates v registryPools
  if cand.length < count then (some resourceExhaustedErr, v, [])
  else
    let tc := tryCreatePools oracle cand count
    let v2 := { v with size := fixedSize v cand,
                       replicas := v.replicas ++ tc.1.map (newReplicaOn v.uuid) }
    ((if tc.2.2 > 0 then some ⟨.INTERNAL, createFailMsg v.uuid tc.2.1⟩ else none),
     v2, tc.1)

/-- The oracle for runs in which every `createReplica` RPC succeeds. -/
def allCreatesOk : Pool → Except String Unit := fun _ => .ok ()

/-- `Volume.ensure()` on the success path of all storage-node RPCs:
replenish missing replicas, fix share protocols, ensure the nexus, then trim
replicas whose URI is not among the nexus children (the destroys succeed and
their `del` events remove the replicas from the volume). -/
def ensure (registryPools : List Pool) (v : Volume) : Except GrpcErr Volume :=
  let missing := v.replicaCount - v.replicas.length
  let step1 : Except GrpcErr Volume :=
    if missing > 0 then
      match createReplicasCore allCreatesOk registryPools missing v with
      | (some e, _, _) => .error e
      | (none, v2, _) => .ok v2
    else .ok v
  match step1 with
  | .error e => .error e
  | .ok v1 =>
    match ensureReplicaShareProtocols v1 with
    | .error e => .error e
    | .ok (v2, rset, _) =>
      match ensureNexus v2 rset with
      | .error e => .error e
      | .ok v3 =>
        match v3.nexus with
        | none => .ok v3
        | some nx =>
          .ok { v3 with replicas :=
                  v3.replicas.filter fun r => nx.children.contains r.uri }

/-- Did the `createReplica` RPC on this pool succeed? -/
def oracleOk (oracle : Pool → Except String Unit) (p : Pool) : Bool :=
  match oracle p with
  | .ok _ => true
  | .error _ => false

/-- Error message of a failed `createReplica` RPC on this pool, if any. -/
def oracleErr (oracle : Pool → Except String Unit) (p : Pool) : Option String :=
  match oracle p with
  | .ok _ => none
  | .error m => some m

/-- When at least `count` candidate pools accept the create, the loop stops
after the first `count` successes and nothing is missing. -/
theorem tryCreatePools_enough (oracle : Pool → Except String Unit) :
    ∀ (l : List Pool) (count : Nat),
      count ≤ (l.filter (oracleOk oracle)).length →
      (tryCreatePools oracle l count).1 =
          (l.filter (oracleOk oracle)).take count ∧
      (tryCreatePools oracle l count).2.2 = 0 := by
  intro l
  induction l with
  | nil =>
    intro count h
    simp only [List.filter_nil, List.length_nil, Nat.le_zero] at h
    subst h
    simp [tryCreatePools]
  | cons p ps ih =>
    intro count h
    cases count with
    | zero => simp [tryCreatePools]
    | succ k =>
      cases ho : oracle p with
      | ok u =>
        have hfil : (p :: ps).filter (oracleOk oracle) =
            p :: ps.filter (oracleOk oracle) := by
          simp [List.filter_cons, oracleOk, ho]
        rw [hfil] at h
        simp only [List.length_cons, Nat.succ_le_succ_iff] at h
        obtain ⟨h1, h2⟩ := ih k h
        simp [tryCreatePools, ho, h1, h2, hfil]
      | error m =>
        have hfil : (p :: ps).filter (oracleOk oracle) =
            ps.filter (oracleOk oracle) := by
          simp [List.filter_cons, oracleOk, ho]
        rw [hfil] at h
        obtain ⟨h1, h2⟩ := ih (k + 1) h
        simp [tryCreatePools, ho, h1, h2, hfil]

/-- When fewer than `count` candidate pools accept the create, the loop runs
through the whole candidate list: it creates a replica on every accepting
pool, collects every error message in order, and stays short by the
difference. -/
theorem tryCreatePools_short (oracle : Pool → Except String Unit) :
    ∀ (l : List Pool) (count : Nat),
      (l.filter (oracleOk oracle)).length < count →
      tryCreatePools oracle l count =
        (l.filter (oracleOk oracle), l.filterMap (oracleErr oracle),
         count - (l.filter (oracleOk oracle)).length) := by
  intro l
  induction l with
  | nil =>
    intro count h
    cases count with
    | zero => exact absurd h (by simp)
    | succ k => simp [tryCreatePools]
  | cons p ps ih =>
    intro count h
    cases count with
    | zero => exact absurd h (by omega)
    | succ k =>
      cases ho : oracle p with
      | ok u =>
        have hfil : (p :: ps).filter (oracleOk oracle) =
            p :: ps.filter (oracleOk oracle) := by
          simp [List.filter_cons, oracleOk, ho]
        have hmap : (p :: ps).filterMap (oracleErr oracle) =
            ps.filterMap (oracleErr oracle) := by
          simp [List.filterMap_cons, oracleErr, ho]
        rw [hfil] at h ⊢
        simp only [List.length_cons, Nat.succ_lt_succ_iff] at h
        have hrec := ih k h
        simp [tryCreatePools, ho, hrec, hmap]
      | error m =>
        have hfil : (p :: ps).filter (oracleOk oracle) =
            ps.filter (oracleOk oracle) := by
          simp [List.filter_cons, oracleOk, ho]
        have hmap : (p :: ps).filterMap (oracleErr oracle) =
            m :: ps.filterMap (oracleErr oracle) := by
          simp [List.filterMap_cons, oracleErr, ho]
        rw [hfil] at h ⊢
        have hrec := ih (k + 1) (by omega)
        simp [tryCreatePools, ho, hrec, hmap]

/-- C4.  `Volume._createReplicas(count)`: with fewer than `count` candidates
(after dropping pools on nodes already hosting a replica) it fails
RESOURCE_EXHAUSTED and creates nothing; with enough candidates it walks them
in order and stops after `count` successful creates; if fewer than `count`
candidates accept, it fails INTERNAL with the message listing every per-pool
error joined by `. `. -/
theorem createReplicas_spec (oracle : Pool → Except String Unit)
    (registryPools : List Pool) (count : Nat) (v : Volume) :
    ((replicaCandidates v registryPools).length < count →
      createReplicasCore oracle registryPools count v =
        (some resourceExhaustedErr, v, [])) ∧
    (count ≤ (replicaCandidates v registryPools).length →
     count ≤ ((replicaCandidates v registryPools).filter
        (oracleOk oracle)).length →
      (createReplicasCore oracle registryPools count v).1 = none ∧
      (createReplicasCore oracle registryPools count v).2.2 =
        ((replicaCandidates v registryPools).filter
          (oracleOk oracle)).take count) ∧
    (count ≤ (replicaCandidates v registryPools).length →
     ((replicaCandidates v registryPools).filter
        (oracleOk oracle)).length < count →
      (createReplicasCore oracle registryPools count v).1 =
        some ⟨.INTERNAL, createFailMsg v.uuid
          ((replicaCandidates v registryPools).filterMap (oracleErr oracle))⟩) := by
  refine ⟨?_, ?_, ?_⟩
  · intro h
    simp only [createReplicasCore, if_pos h]
  · intro hlen hok
    obtain ⟨h1, h2⟩ := tryCreatePools_enough oracle
      (replicaCandidates v registryPools) count hok
    constructor
    · simp only [createReplicasCore, if_neg (Nat.not_lt.mpr hlen)]
      simp [h2]
    · simp only [createReplicasCore, if_neg (Nat.not_lt.mpr hlen)]
      simpa using h1
  · intro hlen hshort
    have hrec := tryCreatePools_short oracle
      (replicaCandidates v registryPools) count hshort
    simp only [createReplicasCore, if_neg (Nat.not_lt.mpr hlen)]
    simp [hrec]
    omega

/-- First pool of the C4/C5 witness scenario. -/
def wPool1 : Pool := ⟨"p1", "n1", "POOL_ONLINE", 100, 10, 0⟩

/-- Second pool of the C4/C5 witness scenario. -/
def wPool2 : Pool := ⟨"p2", "n2", "POOL_ONLINE", 100, 20, 0⟩

/-- A fresh volume for the C4/C5 witness scenario. -/
def wVolume : Volume :=
  ⟨"wu", 1, [], [], 50, 0, 0, none, [], "PENDING", "The volume is being created"⟩

/-- An oracle whose `createReplica` RPC fails on every pool. -/
def wOracle : Pool → Except String Unit :=
  fun p => .error ("create failed on " ++ p.name)

/-- Witness for C4: with two candidates that both refuse the create, the
method fails INTERNAL with both error messages joined. -/
theorem createReplicas_spec_witness :
    (createReplicasCore wOracle [wPool1, wPool2] 1 wVolume).1 =
      some ⟨.INTERNAL, createFailMsg wVolume.uuid
        ((replicaCandidates wVolume [wPool1, wPool2]).filterMap
          (oracleErr wOracle))⟩ :=
  (createReplicas_spec wOracle [wPool1, wPool2] 1 wVolume).2.2
    (by decide) (by decide)

/-- C5.  During replenishment (enough candidates, so the size assignment is
reached): when the volume size is unset (0) it becomes the minimum of
`freeBytes` over the candidate pools capped by `limitBytes` when set and by
`requiredBytes` otherwise; when the size is already set it is unchanged. -/
theorem createReplicas_size (oracle : Pool → Except String Unit)
    (registryPools : List Pool) (count : Nat) (v : Volume) (m : Int)
    (hlen : count ≤ (replicaCandidates v registryPools).length)
    (hmin : ((replicaCandidates v registryPools).map Pool.freeBytes).min? = some m)
    (hmax : ∀ p ∈ replicaCandidates v registryPools,
      p.freeBytes ≤ maxSafeInteger) :
    (v.size = 0 →
      ((createReplicasCore oracle registryPools count v).2.1).size =
        min m (if v.limitBytes != 0 then v.limitBytes else v.requiredBytes)) ∧
    (v.size ≠ 0 →
      ((createReplicasCore oracle registryPools count v).2.1).size = v.size) := by
  have hproj : ((createReplicasCore oracle registryPools count v).2.1).size =
      fixedSize v (replicaCandidates v registryPools) := by
    simp only [createReplicasCore, if_neg (Nat.not_lt.mpr hlen)]
  have hfold : (replicaCandidates v registryPools).foldl
      (fun acc p => min acc p.freeBytes) maxSafeInteger = m := by
    rw [← List.foldl_map Pool.freeBytes (fun acc x => min acc x)]
    cases hmap : (replicaCandidates v registryPools).map Pool.freeBytes with
    | nil => rw [hmap] at hmin; exact absurd hmin (by simp [List.min?])
    | cons x xs =>
      rw [hmap] at hmin
      simp only [List.min?, Option.some.injEq] at hmin
      have hx : x ≤ maxSafeInteger := by
        have : x ∈ (replicaCandidates v registryPools).map Pool.freeBytes := by
          rw [hmap]; exact List.mem_cons_self x xs
        obtain ⟨p, hp, hpx⟩ := List.mem_map.mp this
        rw [← hpx]; exact hmax p hp
      simp only [List.foldl_cons]
      rw [min_eq_right hx, hmin]
  constructor
  · intro hz
    rw [hproj]
    simp [fixedSize, hz, hfold]
  · intro hnz
    rw [hproj]
    simp [fixedSize, hnz]

/-- Witness for C5: on the fresh witness volume (size unset, no limit), the
size becomes `min 80 50 = 50` (free bytes 90 and 80, requiredBytes 50). -/
theorem createReplicas_size_witness :
    ((createReplicasCore allCreatesOk [wPool1, wPool2] 1 wVolume).2.1).size =
      min 80 (if wVolume.limitBytes != 0 then wVolume.limitBytes
              else wVolume.requiredBytes) :=
  (createReplicas_size allCreatesOk [wPool1, wPool2] 1 wVolume 80
    (by decide) (by decide) (by decide)).1 (by decide)

/-! ## C3: share protocols after a successful ensure -/

/-- The share-protocol loop body never violates the local/remote rule: after
`setShareResult`, a replica on the sharing target node carries
`REPLICA_NONE` and a replica on any other node carries something else. -/
theorem setShareResult_spec (nn : String) (r : Replica) :
    ((setShareResult nn r).node = nn →
      (setShareResult nn r).share = "REPLICA_NONE") ∧
    ((setShareResult nn r).node ≠ nn →
      (setShareResult nn r).share ≠ "REPLICA_NONE") := by
  unfold setShareResult
  by_cases h1 : (r.node == nn) = true
  · rw [if_pos h1]
    have hnode : r.node = nn := by simpa using h1
    by_cases h2 : (r.share != "REPLICA_NONE") = true
    · rw [if_pos h2]
      exact ⟨fun _ => rfl, fun hne => absurd hnode hne⟩
    · rw [if_neg h2]
      have hsh : r.share = "REPLICA_NONE" := by simpa using h2
      exact ⟨fun _ => hsh, fun hne => absurd hnode hne⟩
  · rw [if_neg h1]
    have hnode : ¬ r.node = nn := by simpa using h1
    by_cases h2 : (r.share == "REPLICA_NONE") = true
    · rw [if_pos h2]
      exact ⟨fun heq => absurd heq hnode, fun _ => by simp⟩
    · rw [if_neg h2]
      have hsh : ¬ r.share = "REPLICA_NONE" := by simpa using h2
      exact ⟨fun heq => absurd heq hnode, fun _ => hsh⟩

/-- C3 (amended).  When `_ensureReplicaShareProtocols` succeeds (which every
successful `ensure()` requires), every replica of the replica set selected
for the nexus that sits on the sharing target node `nn` (the existing
nexus's node, else the most preferred replica's node) ends with share
`REPLICA_NONE`, and every replica of that set on any other node ends with a
share different from `REPLICA_NONE`. -/
theorem shareProtocols_local_remote (v v' : Volume) (rset : List Replica)
    (nn : String) (h : ensureReplicaShareProtocols v = .ok (v', rset, nn)) :
    ∀ r ∈ rset, (r.node = nn → r.share = "REPLICA_NONE") ∧
      (r.node ≠ nn → r.share ≠ "REPLICA_NONE") := by
  unfold ensureReplicaShareProtocols at h
  cases hp : prioritizeReplicas v with
  | nil => rw [hp] at h; exact absurd h (by simp)
  | cons r0 rest =>
    rw [hp] at h
    simp only [Except.ok.injEq, Prod.mk.injEq] at h
    obtain ⟨-, hrset, hnn⟩ := h
    intro r hr
    rw [← hrset] at hr
    obtain ⟨r1, -, hmap⟩ := List.mem_map.mp hr
    rw [← hmap, hnn]
    exact setShareResult_spec nn r1

/-- The local replica of the C3 scenario: on the nexus node, unshared. -/
def cexR1 : Replica :=
  ⟨"u1", "nodeA", "REPLICA_NONE", shareUri "REPLICA_NONE" "nodeA" "u1", "ONLINE"⟩

/-- The remote replica of the C3 scenario: on another node, shared over
iSCSI (a protocol the share loop leaves untouched). -/
def cexR2 : Replica :=
  ⟨"u1", "nodeB", "REPLICA_ISCSI", shareUri "REPLICA_ISCSI" "nodeB" "u1", "ONLINE"⟩

/-- The nexus of the C3 scenario, on nodeA with both replicas as children. -/
def cexNexus : Nexus :=
  ⟨"u1", "nodeA", 10, "NEXUS_ONLINE", [cexR1.uri, cexR2.uri]⟩

/-- The volume of the C3 scenario: replica count satisfied, nexus present. -/
def cexVolume : Volume :=
  ⟨"u1", 2, [], [], 10, 20, 10, some cexNexus, [cexR1, cexR2], "ONLINE", ""⟩

/-- Counterexample to C3 as stated: `ensure()` succeeds on `cexVolume`
without touching it, yet its replica `cexR2` lives on `nodeB`, a node other
than the nexus's `nodeA`, with share `REPLICA_ISCSI` — not `REPLICA_NVMF` as
the claim demands (the share loop only upgrades `REPLICA_NONE` remotes). -/
theorem ensure_share_cex :
    ensure [] cexVolume = .ok cexVolume ∧
    cexVolume.nexus = some cexNexus ∧
    cexR2 ∈ cexVolume.replicas ∧
    cexR2.node ≠ cexNexus.node ∧
    cexR2.share ≠ "REPLICA_NVMF" := by
  refine ⟨by rfl, by rfl, by decide, by decide, by decide⟩

/-- Witness for C3 (amended) at the concrete scenario volume. -/
theorem shareProtocols_witness :
    (cexR2.node = "nodeA" → cexR2.share = "REPLICA_NONE") ∧
    (cexR2.node ≠ "nodeA" → cexR2.share ≠ "REPLICA_NONE") :=
  shareProtocols_local_remote cexVolume cexVolume [cexR1, cexR2] "nodeA"
    (by rfl) cexR2 (by decide)

/-! ## The CSI controller facade (`CsiServer`, first half of src/csi/moac/csi.js) -/

/-- Status code carried by a CSI call result (`none` when the call
succeeded). -/
def exceptCode {α : Type} : Except GrpcErr α → Option GrpcCode
  | .error e => some e.code
  | .ok _ => none

/-- `CsiServer.getCapacity`.  `topology` is the node name of the
`kubernetes.io/hostname` segment of `accessibleTopology` when present.  The
per-node branch reproduces the source's reduce verbatim, including its `: 0`
arm that resets the accumulator on an inaccessible pool; the fleet branch
filters accessible pools before summing. -/
def csiGetCapacity (topology : Option String) (pools : List Pool) : Int :=
  match topology with
  | some nodeName =>
    (pools.filter fun p => p.node == nodeName).foldl
      (fun acc p => if isPoolAccessible p then acc + (p.capacity - p.used) else 0)
      0
  | none =>
    (pools.filter fun p => isPoolAccessible p).foldl
      (fun acc p => acc + (p.capacity - p.used)) 0

/-- An accessible pool on node `n` with 90 free bytes. -/
def capPoolOk : Pool := ⟨"cp1", "n", "POOL_ONLINE", 100, 10, 0⟩

/-- A faulted pool on the same node `n`. -/
def capPoolBad : Pool := ⟨"cp2", "n", "POOL_FAULTED", 100, 55, 0⟩

/-- C6 (code bug).  With the hostname segment naming node `n` and the node's
pool list holding an accessible pool (90 free) followed by a FAULTED pool,
the source returns 0: its reduce resets the accumulator to 0 at the
inaccessible pool instead of skipping it, so the result depends on the
position of inaccessible pools.  The sum over accessible pools on `n` is 90,
the same call with the two pools swapped returns 90, and the fleet-wide
branch (which filters first) returns 90. -/
theorem getCapacity_node_bug :
    csiGetCapacity (some "n") [capPoolOk, capPoolBad] = 0 ∧
    (([capPoolOk, capPoolBad].filter
        fun p => isPoolAccessible p && p.node == "n").foldl
      (fun acc p => acc + (p.capacity - p.used)) 0) = 90 ∧
    csiGetCapacity (some "n") [capPoolBad, capPoolOk] = 90 ∧
    csiGetCapacity none [capPoolOk, capPoolBad] = 90 := by
  refine ⟨by decide, by decide, by decide, by decide⟩

/-! ## C10: nexus event handlers of the Volume object -/

/-- `Volume.newNexus(nexus)`: adopt the nexus and mirror its state unless the
volume already has one (then only a warning is logged and nothing changes).
The JS asserts `nexus.uuid == this.uuid`; theorems about the handlers carry
that as a hypothesis. -/
def Volume.newNexus (v : Volume) (n : Nexus) : Volume :=
  match v.nexus with
  | some _ => v
  | none => { v with nexus := some n, state := n.state, reason := "" }

/-- `Volume.modNexus(nexus)`: mirror the nexus state unless the volume has no
nexus (then only a warning is logged and nothing changes). -/
def Volume.modNexus (v : Volume) (n : Nexus) : Volume :=
  match v.nexus with
  | none => v
  | some _ => { v with state := n.state, reason := "" }

/-- `Volume.delNexus(nexus)`: drop the nexus and become PENDING unless the
volume has no nexus (then only a warning is logged and nothing changes). -/
def Volume.delNexus (v : Volume) (_n : Nexus) : Volume :=
  match v.nexus with
  | none => v
  | some _ =>
    { v with nexus := none, state := "PENDING",
             reason := "The volume is missing nexus" }

/-- C10 (amended).  For a nexus with the volume's uuid: `newNexus` on a
volume without a nexus adopts it and mirrors its state with an empty reason;
`modNexus` on a volume with a nexus mirrors the state with an empty reason;
`delNexus` on a volume with a nexus leaves no nexus, state `PENDING` and
reason `The volume is missing nexus`.  (The warn-only paths — `newNexus`
with a nexus present, `modNexus`/`delNexus` without one — change nothing.) -/
theorem nexusHandlers_spec (v : Volume) (n : Nexus) (_h : n.uuid = v.uuid) :
    (v.nexus = none →
      (v.newNexus n).nexus = some n ∧ (v.newNexus n).state = n.state ∧
      (v.newNexus n).reason = "") ∧
    (v.nexus.isSome = true →
      (v.modNexus n).state = n.state ∧ (v.modNexus n).reason = "") ∧
    (v.nexus.isSome = true →
      (v.delNexus n).nexus = none ∧ (v.delNexus n).state = "PENDING" ∧
      (v.delNexus n).reason = "The volume is missing nexus") := by
  refine ⟨?_, ?_, ?_⟩
  · intro hn
    simp [Volume.newNexus, hn]
  · intro hn
    obtain ⟨m, hm⟩ := Option.isSome_iff_exists.mp hn
    simp [Volume.modNexus, hm]
  · intro hn
    obtain ⟨m, hm⟩ := Option.isSome_iff_exists.mp hn
    simp [Volume.delNexus, hm]

/-- A freshly constructed volume (state and reason as the JS constructor
sets them). -/
def hVolume : Volume :=
  ⟨"hu", 1, [], [], 50, 0, 0, none, [], "PENDING", "The volume is being created"⟩

/-- A nexus carrying the volume's uuid. -/
def hNexus : Nexus := ⟨"hu", "nodeZ", 50, "NEXUS_DEGRADED", []⟩

/-- Counterexample to C10 as stated: `delNexus` for a nexus of the volume's
uuid arriving at a volume that has no nexus is a warn-only no-op, so the
reason keeps its initial value instead of `The volume is missing nexus`. -/
theorem delNexus_cex :
    hNexus.uuid = hVolume.uuid ∧
    (hVolume.delNexus hNexus).reason = "The volume is being created" ∧
    (hVolume.delNexus hNexus).reason ≠ "The volume is missing nexus" := by
  refine ⟨by decide, by decide, by decide⟩

/-- Witness for C10 (amended) on the concrete volume after it adopts the
nexus. -/
theorem nexusHandlers_witness :
    ((hVolume.newNexus hNexus).delNexus hNexus).nexus = none ∧
    ((hVolume.newNexus hNexus).delNexus hNexus).state = "PENDING" ∧
    ((hVolume.newNexus hNexus).delNexus hNexus).reason =
      "The volume is missing nexus" :=
  (nexusHandlers_spec (hVolume.newNexus hNexus) hNexus (by decide)).2.2
    (by decide)

/-! ## C7/C9: CreateVolume -/

/-- A character of the class `[0-9a-f]` of `PVC_RE`. -/
def isHexDigit (c : Char) : Bool :=
  ('0' ≤ c && c ≤ '9') || ('a' ≤ c && c ≤ 'f')

/-- Take exactly `n` hex digits from the front, returning them and the rest. -/
def takeHex : Nat → List Char → Option (List Char × List Char)
  | 0, cs => some ([], cs)
  | _ + 1, [] => none
  | n + 1, c :: cs =>
    if isHexDigit c then
      match takeHex n cs with
      | some (h, rest) => some (c :: h, rest)
      | none => none
    else none

/-- Match a literal dash followed by exactly `n` hex digits. -/
def takeDashHex (n : Nat) (cs : List Char) : Option (List Char × List Char) :=
  match cs with
  | '-' :: rest => takeHex n rest
  | _ => none

/-- Match the capture group of `PVC_RE` — `[0-9a-f]{8}-[0-9a-f]{4}-`
`[0-9a-f]{4}-[0-9a-f]{4}-[0-9a-f]{12}` — at the front of the input,
returning the captured characters.  The pattern has fixed width, so the JS
regex engine's match here is exactly this deterministic parse. -/
def matchUuid (cs : List Char) : Option (List Char) :=
  match takeHex 8 cs with
  | none => none
  | some (h1, cs1) =>
    match takeDashHex 4 cs1 with
    | none => none
    | some (h2, cs2) =>
      match takeDashHex 4 cs2 with
      | none => none
      | some (h3, cs3) =>
        match takeDashHex 4 cs3 with
        | none => none
        | some (h4, cs4) =>
          match takeDashHex 12 cs4 with
          | none => none
          | some (h5, _) =>
            some (h1 ++ '-' :: h2 ++ '-' :: h3 ++ '-' :: h4 ++ '-' :: h5)

/-- Match the whole (unanchored) `PVC_RE` at the front of the input:
the literal `pvc-` followed by the uuid group. -/
def pvcAt : List Char → Option (List Char)
  | 'p' :: 'v' :: 'c' :: '-' :: rest => matchUuid rest
  | _ => none

/-- JS `String.match` semantics for `PVC_RE`: try the pattern at every
position from the left and return the first capture. -/
def pvcFindAux : List Char → Option (List Char)
  | [] => none
  | c :: cs =>
    match pvcAt (c :: cs) with
    | some u => some u
    | none => pvcFindAux cs

/-- `name.match(PVC_RE)`, reduced to its capture group `m[1]`. -/
def pvcMatch (s : String) : Option String :=
  (pvcFindAux s.data).map fun cs => String.mk cs

/-- Volume parameters handed to `commander.ensureVolume` by
`CsiServer.createVolume`. -/
structure VolumeSpec where
  requiredBytes : Int
  limitBytes : Int
  mustNodes : List String
  shouldNodes : List String
  count : Nat
deriving DecidableEq, Repr

/-- What `createVolume` reads back from the nexus `ensureVolume` returns. -/
structure NexusView where
  node : String
  size : Int
deriving DecidableEq, Repr

/-- The `volume` object of a successful CreateVolume reply: the uuid as
`volumeId`, the nexus size, and the single
`kubernetes.io/hostname: nexus.node` accessible-topology segment. -/
structure CreateVolumeReply where
  volumeId : String
  capacityBytes : Int
  topologyNode : String
deriving DecidableEq, Repr

/-- Arguments of `CreateVolume`.  `volumeContentSource` records whether the
field is present; `volumeCapabilities` is `none` when absent, otherwise the
access modes of the listed capabilities; `requisite`/`preferred` hold the
`segments` key-value lists of `accessibilityRequirements` (absence of the
whole field behaves as two empty lists); `repl` is `parameters.repl` already
taken through `parseInt` (absent = `none`, a non-numeric string behaves as a
rejected non-positive value). -/
structure CreateVolumeArgs where
  name : String
  volumeContentSource : Bool
  requiredBytes : Int
  limitBytes : Int
  volumeCapabilities : Option (List String)
  requisite : List (List (String × String))
  preferred : List (List (String × String))
  repl : Option Int
deriving DecidableEq, Repr

/-- `checkCapabilities(caps)`: absent capabilities are rejected; the first
capability whose access mode differs from `SINGLE_NODE_WRITER` is rejected
(an empty list passes, as in the JS where `[]` is truthy). -/
def checkCapabilities : Option (List String) → Except GrpcErr Unit
  | none => .error ⟨.INVALID_ARGUMENT, "Missing volume capabilities"⟩
  | some caps =>
    match caps.find? (fun mode => mode != "SINGLE_NODE_WRITER") with
    | some mode =>
      .error ⟨.INVALID_ARGUMENT, "Access mode " ++ mode ++ " not supported"⟩
    | none => .ok ()

/-- The requisite-segment loop: any key other than the hostname key is
rejected; hostname values are collected into `mustNodes`. -/
def collectMustSegs : List (String × String) → Except GrpcErr (List String)
  | [] => .ok []
  | (k, val) :: rest =>
    if k == "kubernetes.io/hostname" then
      match collectMustSegs rest with
      | .ok vs => .ok (val :: vs)
      | .error e => .error e
    else
      .error ⟨.INVALID_ARGUMENT,
        "Volume topology other than hostname not supported"⟩

/-- The outer loop over the `requisite` list. -/
def collectMustNodes : List (List (String × String)) → Except GrpcErr (List String)
  | [] => .ok []
  | segs :: rest =>
    match collectMustSegs segs with
    | .error e => .error e
    | .ok vs =>
      match collectMustNodes rest with
      | .ok ws => .ok (vs ++ ws)
      | .error e => .error e

/-- The preferred-segment loops: non-hostname keys are silently ignored. -/
def collectShouldNodes (pref : List (List (String × String))) : List String :=
  (pref.map fun segs =>
    segs.filterMap fun kv =>
      if kv.1 == "kubernetes.io/hostname" then some kv.2 else none).flatten

/-- `parameters.repl`: absent means 1; a non-positive (or non-numeric) value
is rejected. -/
def parseRepl : Option Int → Except GrpcErr Nat
  | none => .ok 1
  | some k =>
    if k ≤ 0 then .error ⟨.INVALID_ARGUMENT, "Invalid replica count"⟩
    else .ok k.toNat

/-- `CsiServer.createVolume`.  `oracle` is `commander.ensureVolume`; the
second component records whether it was invoked (i.e. whether volume
creation was attempted).  The checks run in source order: content source,
name, capabilities, requisite topology, replica count, then `ensureVolume`,
whose nexus yields the reply. -/
def createVolume (oracle : String → VolumeSpec → Except GrpcErr NexusView)
    (args : CreateVolumeArgs) : Except GrpcErr CreateVolumeReply × Bool :=
  if args.volumeContentSource then
    (.error ⟨.INVALID_ARGUMENT, "Source for create volume is not supported"⟩,
     false)
  else
    match pvcMatch args.name with
    | none =>
      (.error ⟨.INVALID_ARGUMENT,
        "Expected the volume name in pvc-{uuid} format: " ++ args.name⟩, false)
    | some uuid =>
      match checkCapabilities args.volumeCapabilities with
      | .error e => (.error e, false)
      | .ok _ =>
        match collectMustNodes args.requisite with
        | .error e => (.error e, false)
        | .ok mustNodes =>
          match parseRepl args.repl with
          | .error e => (.error e, false)
          | .ok count =>
            match oracle uuid ⟨args.requiredBytes, args.limitBytes, mustNodes,
                collectShouldNodes args.preferred, count⟩ with
            | .error e => (.error e, true)
            | .ok nx => (.ok ⟨uuid, nx.size, nx.node⟩, true)

/-- C7.  A name without a `pvc-{uuid}` match makes `CreateVolume` fail with
INVALID_ARGUMENT (whatever the other arguments), and every successful reply
carries exactly the captured uuid group of the name as its `volumeId` (which
is also the id handed to `ensureVolume`). -/
theorem createVolume_name (oracle : String → VolumeSpec → Except GrpcErr NexusView)
    (args : CreateVolumeArgs) :
    (pvcMatch args.name = none →
      exceptCode (createVolume oracle args).1 = some .INVALID_ARGUMENT) ∧
    (∀ r, (createVolume oracle args).1 = .ok r →
      pvcMatch args.name = some r.volumeId) := by
  cases hcs : args.volumeContentSource with
  | true =>
    constructor
    · intro _
      simp [createVolume, hcs, exceptCode]
    · intro r hr
      simp [createVolume, hcs] at hr
  | false =>
    cases hm : pvcMatch args.name with
    | none =>
      constructor
      · intro _
        simp [createVolume, hcs, hm, exceptCode]
      · intro r hr
        simp [createVolume, hcs, hm] at hr
    | some uuid =>
      constructor
      · intro hnone
        simp at hnone
      · intro r hr
        simp only [createVolume, hcs, Bool.false_eq_true, if_false, hm] at hr
        split at hr
        · simp at hr
        · split at hr
          · simp at hr
          · split at hr
            · simp at hr
            · split at hr
              · simp at hr
              · simp only [Except.ok.injEq] at hr
                subst hr
                rfl

/-- An `ensureVolume` oracle that succeeds with a nexus on `nodeA`. -/
def okOracle : String → VolumeSpec → Except GrpcErr NexusView :=
  fun _ _ => .ok ⟨"nodeA", 50⟩

/-- CreateVolume arguments with a name that does not match `pvc-{uuid}`. -/
def badNameArgs : CreateVolumeArgs :=
  ⟨"volume-1", false, 50, 0, some ["SINGLE_NODE_WRITER"], [], [], none⟩

/-- CreateVolume arguments with the pvc name of the spec's happy-path
scenario. -/
def goodArgs : CreateVolumeArgs :=
  ⟨"pvc-753b391c-9b04-4ce3-9c74-9d949152e547", false, 50, 0,
   some ["SINGLE_NODE_WRITER"], [], [], none⟩

/-- Witness for C7: a non-matching name is rejected with INVALID_ARGUMENT,
and the happy-path reply's `volumeId` is the captured uuid. -/
theorem createVolume_name_witness :
    exceptCode (createVolume okOracle badNameArgs).1 = some .INVALID_ARGUMENT ∧
    pvcMatch goodArgs.name = some "753b391c-9b04-4ce3-9c74-9d949152e547" :=
  ⟨(createVolume_name okOracle badNameArgs).1 rfl,
   (createVolume_name okOracle goodArgs).2
     ⟨"753b391c-9b04-4ce3-9c74-9d949152e547", 50, "nodeA"⟩ rfl⟩

/-- C9.  A CreateVolume request with `volumeContentSource` set fails with
INVALID_ARGUMENT (with the content-source message, i.e. before the name,
capability and topology checks), and `ensureVolume` is never invoked, so no
volume is created. -/
theorem createVolume_content_source
    (oracle : String → VolumeSpec → Except GrpcErr NexusView)
    (args : CreateVolumeArgs) (h : args.volumeContentSource = true) :
    createVolume oracle args =
      (.error ⟨.INVALID_ARGUMENT, "Source for create volume is not supported"⟩,
       false) := by
  simp [createVolume, h]

/-- CreateVolume arguments with a content source and an invalid name. -/
def contentSourceArgs : CreateVolumeArgs :=
  ⟨"not-a-pvc", true, 50, 0, some ["SINGLE_NODE_WRITER"], [], [], none⟩

/-- Witness for C9 at concrete arguments whose name is also invalid: the
content-source rejection wins and the ensure oracle is not called. -/
theorem createVolume_content_source_witness :
    createVolume okOracle contentSourceArgs =
      (.error ⟨.INVALID_ARGUMENT, "Source for create volume is not supported"⟩,
       false) :=
  createVolume_content_source okOracle contentSourceArgs rfl

/-! ## C8: ControllerPublishVolume -/

/-- Split a character list at every slash (JS `nodeId.split('/')`). -/
def splitSlash : List Char → List (List Char)
  | [] => [[]]
  | c :: cs =>
    let rest := splitSlash cs
    if c == '/' then [] :: rest
    else
      match rest with
      | r :: rs => (c :: r) :: rs
      | [] => [[c]]

/-- Modelled from the spec: `parseMayastorNodeId` lives in
`csi/moac/common.js`, which is not among the provided sources.  Spec section
6: node id format `mayastor://<node-name>`, parsed with a strict schema
check; a malformed id is rejected with INVALID_ARGUMENT.  Splitting on `/`
must yield exactly `mayastor:`, an empty part, and a non-empty node name. -/
def parseMayastorNodeId (nodeId : String) : Except GrpcErr String :=
  match (splitSlash nodeId.data).map (fun cs => String.mk cs) with
  | [proto, empty, node] =>
    if proto == "mayastor:" && empty == "" && node != "" then .ok node
    else .error ⟨.INVALID_ARGUMENT, "Invalid mayastor node ID: " ++ nodeId⟩
  | _ => .error ⟨.INVALID_ARGUMENT, "Invalid mayastor node ID: " ++ nodeId⟩

/-- A malformed node id is always rejected with INVALID_ARGUMENT. -/
theorem parseMayastorNodeId_err_code {s : String} {e : GrpcErr}
    (h : parseMayastorNodeId s = .error e) : e.code = .INVALID_ARGUMENT := by
  unfold parseMayastorNodeId at h
  split at h
  · split at h
    · exact absurd h (by simp)
    · cases h
      rfl
  · cases h
    rfl

/-- `CsiServer.controllerPublishVolume`.  `volumes` backs
`volumes.getNexus(volumeId)`; `publish` is `volumes.publishNexus`;
`volumeCapability` is `none` when absent, else its access mode.  Checks run
in source order: volume existence, node id parse, node match, readonly,
capability presence, capability check, then publish — where an
ALREADY_EXISTS failure is turned into success. -/
def controllerPublishVolume (volumes : List Nexus)
    (publish : String → Except GrpcErr Unit) (volumeId nodeId : String)
    (readonly : Bool) (volumeCapability : Option String) :
    Except GrpcErr Unit :=
  match volumes.find? (fun nx => nx.uuid == volumeId) with
  | none => .error ⟨.NOT_FOUND, "Volume \"" ++ volumeId ++ "\" does not exist"⟩
  | some nexus =>
    match parseMayastorNodeId nodeId with
    | .error e => .error e
    | .ok node =>
      if node != nexus.node then
        .error ⟨.INVALID_ARGUMENT,
          "Cannot publish the volume \"" ++ volumeId ++
            "\" on a different node \"" ++ node ++ "\" than it was created \"" ++
            nexus.node ++ "\""⟩
      else if readonly then
        .error ⟨.INVALID_ARGUMENT, "readonly volumes are unsupported"⟩
      else
        match volumeCapability with
        | none => .error ⟨.INVALID_ARGUMENT, "missing volume capability"⟩
        | some mode =>
          match checkCapabilities (some [mode]) with
          | .error e => .error e
          | .ok _ =>
            match publish nexus.uuid with
            | .ok _ => .ok ()
            | .error e =>
              if e.code == GrpcCode.ALREADY_EXISTS then .ok () else .error e

/-- C8.  On an existing volume: a node id that does not parse as
`mayastor://<node-name>` is rejected (with INVALID_ARGUMENT); a parsed node
name differing from the nexus's node fails INVALID_ARGUMENT; `readonly=true`
fails INVALID_ARGUMENT; and when the underlying publish fails with
ALREADY_EXISTS the call succeeds, so repeating it on the same node
succeeds. -/
theorem publishVolume_spec (volumes : List Nexus)
    (publish : String → Except GrpcErr Unit) (volumeId nodeId : String)
    (readonly : Bool) (cap : Option String) (nexus : Nexus)
    (hfound : volumes.find? (fun nx => nx.uuid == volumeId) = some nexus) :
    (∀ e, parseMayastorNodeId nodeId = .error e →
      controllerPublishVolume volumes publish volumeId nodeId readonly cap =
        .error e ∧ e.code = .INVALID_ARGUMENT) ∧
    (∀ node, parseMayastorNodeId nodeId = .ok node → node ≠ nexus.node →
      exceptCode (controllerPublishVolume volumes publish volumeId nodeId
        readonly cap) = some .INVALID_ARGUMENT) ∧
    (readonly = true →
      exceptCode (controllerPublishVolume volumes publish volumeId nodeId
        readonly cap) = some .INVALID_ARGUMENT) ∧
    (∀ node msg, parseMayastorNodeId nodeId = .ok node → node = nexus.node →
      readonly = false → cap = some "SINGLE_NODE_WRITER" →
      publish nexus.uuid = .error ⟨.ALREADY_EXISTS, msg⟩ →
      controllerPublishVolume volumes publish volumeId nodeId readonly cap =
        .ok ()) := by
  refine ⟨?_, ?_, ?_, ?_⟩
  · intro e he
    constructor
    · simp [controllerPublishVolume, hfound, he]
    · exact parseMayastorNodeId_err_code he
  · intro node hnode hne
    have hbne : (node != nexus.node) = true := by
      simpa using hne
    simp [controllerPublishVolume, hfound, hnode, hbne, exceptCode]
  · intro hro
    cases hparse : parseMayastorNodeId nodeId with
    | error e =>
      simp [controllerPublishVolume, hfound, hparse, exceptCode,
        parseMayastorNodeId_err_code hparse]
    | ok node =>
      by_cases hne : (node != nexus.node) = true
      · simp [controllerPublishVolume, hfound, hparse, hne, exceptCode]
      · simp only [bne_iff_ne, ne_eq, not_not] at hne
        simp [controllerPublishVolume, hfound, hparse, hne, hro, exceptCode]
  · intro node msg hnode heq hro hcap hpub
    subst heq hro hcap
    simp [controllerPublishVolume, hfound, hnode, hpub, checkCapabilities]

/-- The published nexus of the C8 witness scenario. -/
def pubNexus : Nexus := ⟨"pv", "nodeA", 10, "NEXUS_ONLINE", []⟩

/-- A publish oracle that reports the nexus as already published. -/
def pubOracle : String → Except GrpcErr Unit :=
  fun _ => .error ⟨.ALREADY_EXISTS, "already published"⟩

/-- Witness for C8: repeating the publish on the nexus's own node succeeds
even though the underlying publish reports ALREADY_EXISTS. -/
theorem publishVolume_spec_witness :
    controllerPublishVolume [pubNexus] pubOracle "pv" "mayastor://nodeA"
      false (some "SINGLE_NODE_WRITER") = .ok () :=
  (publishVolume_spec [pubNexus] pubOracle "pv" "mayastor://nodeA" false
    (some "SINGLE_NODE_WRITER") pubNexus rfl).2.2.2 "nodeA" "already published"
    rfl rfl rfl rfl rfl

end Mayastor
